import Mathlib

/-
Verification development for the NekoImageGallery controllers
(app/Controllers/search.py and app/Controllers/admin.py).

The controllers are shallowly embedded as pure Lean functions.  External
collaborators (the transformer embedding services, the vector database,
the storage backend, PIL image decoding, and the content-address hash)
are passed in as function parameters, mirroring the call shapes at the
controller boundary.  Raised HTTP exceptions are modelled with the
Except monad; a Python exception that no handler catches is modelled as
a distinguished non-HTTP failure.  Floating point scores and embedding
vector coordinates are modelled over the exact ordered ring of the
integers: the controllers only multiply, compare and sort scores, and
every similarity value is produced by a collaborator parameter, so no
theorem below needs division or roundoff.
-/

namespace NekoGallery

/-- An embedding vector, as produced by the transformer services. -/
abbrev Vec := List ℤ

/-- Raw request bytes (one natural number per byte). -/
abbrev Bytes := List ℕ

/-- Outcome of a controller code path that does not return normally.
A raised fastapi HTTPException carries a status code and a detail
string; a Python exception that escapes uncaught (for instance an
AssertionError or a PIL UnidentifiedImageError) is modelled by
the second constructor. -/
inductive Failure where
  | http (code : ℕ) (detail : String)
  | unhandledException (name : String)
deriving DecidableEq, Repr

/-- The search basis enum of app/Models/api_model.py (a string-valued
enum in the source, so members compare by value across enum classes). -/
inductive SearchBasisEnum where
  | vision
  | ocr
  | combined
deriving DecidableEq, Repr

/-- The combined-priority enum of app/Models/api_model.py; it has only
the two primary bases. -/
inductive SearchCombinedPriorityEnum where
  | vision
  | ocr
deriving DecidableEq, Repr

/-- Both enums are string valued in the source, so a combined-priority
member equals the like-named basis member; this function realises that
value-level identification. -/
def priorityToBasis : SearchCombinedPriorityEnum → SearchBasisEnum
  | SearchCombinedPriorityEnum.vision => SearchBasisEnum.vision
  | SearchCombinedPriorityEnum.ocr => SearchBasisEnum.ocr

/-- The per-record payload stored in the index (app/Models/img_data.py,
fields as read and written by the two controllers).  The index date is
an abstract timestamp.  The two embedding vectors are written later by
the asynchronous indexer and are absent on a fresh record. -/
structure ImageData where
  id : String
  url : String
  thumbnail_url : Option String
  «local» : Bool
  categories : List String
  starred : Bool
  format : String
  index_date : ℕ
  image_vector : Option Vec := none
  text_contain_vector : Option Vec := none
deriving DecidableEq, Repr

/-- One ranked search result: the record payload plus a relevance
score (app/Models/search_result.py as used by the search controller). -/
structure SearchResult where
  img : ImageData
  score : ℤ
deriving DecidableEq, Repr

/-- Paging query parameters, already bounds-checked by fastapi. -/
structure SearchPagingParams where
  count : ℕ
  skip : ℕ
deriving DecidableEq, Repr

/-- The advanced-search request body (app/Models/api_model.py).  The
combination mode is forwarded opaquely to the index, so it is kept as a
plain string here. -/
structure AdvancedSearchModel where
  criteria : List String
  negative_criteria : List String
  mode : String
  combined_priority : Option SearchCombinedPriorityEnum
  extra_prompt : Option String
deriving DecidableEq, Repr

/-! Combined-mode rescoring (search.py, calculate_and_sort_by_combined_scores) -/

/-- The comparison embedding picked for one result:
itm.img.image_vector if itm.img.image_vector is not None else
itm.img.text_contain_vector (search.py line 135). -/
def comparison_vector (img : ImageData) : Option Vec :=
  match img.image_vector with
  | some v => some v
  | none => img.text_contain_vector

/-- The extra-prompt vector of search.py lines 130-132:
get_text_vector applied to the extra prompt when combined_priority is
ocr, get_bert_vector otherwise.  get_text_vector is the vision-aligned
text encoder and get_bert_vector the OCR-aligned one, both passed in as
collaborators.  A missing extra prompt would crash the encoder call in
the source, hence the Option result. -/
def extra_prompt_vec (get_text_vector get_bert_vector : String → Vec)
    (model : AdvancedSearchModel) : Option Vec :=
  match model.extra_prompt with
  | none => none
  | some p =>
      some (if model.combined_priority = some SearchCombinedPriorityEnum.ocr
            then get_text_vector p
            else get_bert_vector p)

/-- One iteration of the rescoring loop (search.py lines 134-137):
the result's score becomes cosine-similarity times the original score.
The cosine routine (app/util/calculate_vectors_cosine.py) is a
collaborator parameter; a record with neither embedding would crash it
in the source, hence the Option result. -/
def rescore_one (sim : Vec → Vec → ℤ) (prompt_vec : Vec) (itm : SearchResult) :
    Option SearchResult :=
  match comparison_vector itm.img with
  | some v => some { itm with score := sim v prompt_vec * itm.score }
  | none => none

/-- The whole rescoring loop, one result after the other in order. -/
def rescore_results (sim : Vec → Vec → ℤ) (prompt_vec : Vec) :
    List SearchResult → Option (List SearchResult)
  | [] => some []
  | itm :: rest =>
      match rescore_one sim prompt_vec itm, rescore_results sim prompt_vec rest with
      | some itm2, some rest2 => some (itm2 :: rest2)
      | _, _ => none

/-- The comparator realising result.sort(key=lambda i: i.score,
reverse=True): a stable descending sort by score. -/
def combined_score_order (a b : SearchResult) : Bool :=
  decide (b.score ≤ a.score)

/-- search.py calculate_and_sort_by_combined_scores: embed the extra
prompt once, rescore every result by similarity to it, then stable-sort
descending by the new score (CPython list.sort is stable, and
reverse=True keeps equal elements in their original order). -/
def calculate_and_sort_by_combined_scores
    (get_text_vector get_bert_vector : String → Vec) (sim : Vec → Vec → ℤ)
    (result : List SearchResult) (model : AdvancedSearchModel) :
    Option (List SearchResult) :=
  match extra_prompt_vec get_text_vector get_bert_vector model with
  | none => none
  | some prompt_vec =>
      match rescore_results sim prompt_vec result with
      | none => none
      | some rescored => some (rescored.mergeSort combined_score_order)

/-! Advanced search (search.py, advancedSearch) -/

/-- The query request handed to db_context.queryAdvanced (search.py
lines 105-108).  The effective basis is recorded as passed to
db_context.getVectorByBasis; it is an Option because the source would
pass combined_priority through unvalidated (None compares unequal to
every enum member). -/
structure AdvancedQuery where
  positive_vectors : List Vec
  negative_vectors : List Vec
  query_vector_basis : Option SearchBasisEnum
  mode : String
  top_k : ℕ
  skip : ℕ
deriving DecidableEq, Repr

/-- Modelled from the spec: AdvancedSearchModel.validate_combined
(app/Models/api_model.py, not under src).  Spec 4.3: if basis is
combined, combined-priority and extra prompt must both be present
(validated as a single precondition check), else the request fails with
ValidationError(422). -/
def validate_combined (model : AdvancedSearchModel) (basis : SearchBasisEnum) :
    Except Failure Unit :=
  if basis = SearchBasisEnum.combined ∧
      ¬(model.combined_priority.isSome ∧ model.extra_prompt.isSome)
  then Except.error (Failure.http 422 "Combined search requires combined_priority and extra_prompt.")
  else Except.ok ()

/-- search.py advancedSearch, up to the query it issues to the index:
validate the combined fields, reject an empty pair of criteria lists,
compute the effective basis, embed every criterion with the text
encoder aligned to the effective basis, and assemble the query. -/
def advancedSearch (get_text_vector get_bert_vector : String → Vec)
    (model : AdvancedSearchModel) (basis : SearchBasisEnum)
    (paging : SearchPagingParams) : Except Failure AdvancedQuery :=
  match validate_combined model basis with
  | Except.error e => Except.error e
  | Except.ok _ =>
      if model.criteria.length + model.negative_criteria.length = 0 then
        Except.error (Failure.http 422 "At least one criteria should be provided.")
      else
        let _current_basis : Option SearchBasisEnum :=
          if basis = SearchBasisEnum.combined
          then model.combined_priority.map priorityToBasis
          else some basis
        let positive_vectors :=
          if _current_basis = some SearchBasisEnum.ocr
          then model.criteria.map get_bert_vector
          else model.criteria.map get_text_vector
        let negative_vectors :=
          if _current_basis = some SearchBasisEnum.ocr
          then model.negative_criteria.map get_bert_vector
          else model.negative_criteria.map get_text_vector
        Except.ok { positive_vectors := positive_vectors,
                    negative_vectors := negative_vectors,
                    query_vector_basis := _current_basis,
                    mode := model.mode,
                    top_k := paging.count,
                    skip := paging.skip }

/-! Image search and random pick (search.py, imageSearch / randomPick) -/

/-- A nearest-neighbor query issued to db_context.querySearch with an
explicit skip (as the imageSearch call site passes both). -/
structure QuerySearchCall where
  query_vector : Vec
  top_k : ℕ
  skip : ℕ
deriving DecidableEq, Repr

/-- search.py imageSearch: open the uploaded bytes with PIL with no
try-block around the call, so a decode failure escapes as an uncaught
exception; on success embed the image and query the vision space with
the request's count and skip. -/
def imageSearch {Img : Type} (decode : Bytes → Option Img)
    (get_image_vector : Img → Vec) (image : Bytes)
    (paging : SearchPagingParams) : Except Failure QuerySearchCall :=
  match decode image with
  | none => Except.error (Failure.unhandledException "UnidentifiedImageError")
  | some img =>
      Except.ok { query_vector := get_image_vector img,
                  top_k := paging.count,
                  skip := paging.skip }

/-- search.py randomPick: the call db_context.querySearch(random_vector,
top_k=paging.count) forwards only the probe vector and the count; the
skip paging parameter is never passed on.  The value returned here is
the argument tuple of that call. -/
def randomPick (get_random_vector : Unit → Vec)
    (paging : SearchPagingParams) : Vec × ℕ :=
  (get_random_vector (), paging.count)

/-! Upload (admin.py, upload_image) -/

/-- The upload request file as the handler reads it: declared
content type, optional filename, and the byte payload. -/
structure UploadFile where
  content_type : String
  filename : Option String
  contents : Bytes
deriving DecidableEq, Repr

/-- The upload query model (app/Models/api_models/admin_query_params.py
as consumed by the handler). -/
structure UploadImageModel where
  url : String
  thumbnail_url : Option String
  «local» : Bool
  categories : List String
  starred : Bool
  skip_ocr : Bool
deriving DecidableEq, Repr

/-- What the handler hands to upload_service.upload_image on success:
the decoded image object, the record payload, the raw bytes and the
skip-ocr flag (admin.py line 122). -/
structure UploadSubmission (Img : Type) where
  image : Img
  data : ImageData
  img_bytes : Bytes
  skip_ocr : Bool

/-- The successful upload response body. -/
structure ImageUploadResponse where
  message : String
  image_id : String
deriving DecidableEq, Repr

/-- Python str.lower restricted to the ascii range the allow-lists
use: lower every character of the string. -/
def lowerString (s : String) : String := String.mk (s.data.map Char.toLower)

/-- The fixed content-type allow-list IMAGE_MIMES of admin.py. -/
def IMAGE_MIMES : List (String × String) :=
  [("image/jpeg", "jpeg"), ("image/png", "png"),
   ("image/webp", "webp"), ("image/gif", "gif")]

/-- pathlib PurePath(filename).suffix: the final dot-led component of
the last path segment; empty when the last dot is at position 0 (a
hidden file) or at the very end, or when there is no dot at all. -/
def pathSuffix (filename : String) : String :=
  let cs := filename.data.foldl (fun acc c => if c = '/' then [] else acc ++ [c]) []
  match ((List.range cs.length).filter (fun i => cs.getD i ' ' = '.')).getLast? with
  | some i => if 0 < i ∧ i + 1 < cs.length then String.mk (cs.drop i) else ""
  | none => ""

/-- admin.py lines 94-100: resolve the image format tag from the
declared content type through IMAGE_MIMES, falling back to the
filename-extension allow-list when the content type is unrecognized
and a non-empty filename is present. -/
def resolve_img_type (image_file : UploadFile) : Option String :=
  match IMAGE_MIMES.lookup (lowerString image_file.content_type) with
  | some t => some t
  | none =>
      match image_file.filename with
      | some fn =>
          if fn ≠ "" then
            let extension := lowerString (pathSuffix fn)
            if extension ∈ [".jpg", ".png", ".jpeg", ".jfif", ".webp", ".gif"]
            then some (String.mk (extension.data.drop 1))
            else none
          else none
      | none => none

/-- admin.py upload_image: resolve the format (415 when neither
allow-list matches), hash the bytes into the content-addressed id,
reject a duplicate id with 409 quoting the id, decode the bytes (400
when PIL cannot identify the image), then submit to the upload queue.
generate_uuid (app/util/generate_uuid.py), validate_ids (the index) and
the PIL decoder are collaborators; now is the index timestamp. -/
def upload_image {Img : Type} (generate_uuid : Bytes → String)
    (validate_ids : List String → List String) (decode : Bytes → Option Img)
    (now : ℕ) (image_file : UploadFile) (model : UploadImageModel) :
    Except Failure (UploadSubmission Img × ImageUploadResponse) :=
  match resolve_img_type image_file with
  | none => Except.error (Failure.http 415 "Unsupported image format.")
  | some img_type =>
      let img_bytes := image_file.contents
      let img_id := generate_uuid img_bytes
      if (validate_ids [img_id]).length ≠ 0 then
        Except.error (Failure.http 409
          ("The uploaded point is already contained in the database! entity id: " ++ img_id))
      else
        match decode img_bytes with
        | none => Except.error (Failure.http 400 "Cannot open the image file.")
        | some image =>
            Except.ok
              ({ image := image,
                 data := { id := img_id,
                           url := model.url,
                           thumbnail_url := model.thumbnail_url,
                           «local» := model.«local»,
                           categories := model.categories,
                           starred := model.starred,
                           format := img_type,
                           index_date := now },
                 img_bytes := img_bytes,
                 skip_ocr := model.skip_ocr },
               { message := "OK. Image added to upload queue.",
                 image_id := img_id })

/-! Moderation (admin.py, update_image / delete_image) -/

/-- The partial-update request body
(app/Models/api_models/admin_api_model.py): both fields optional. -/
structure ImageOptUpdateModel where
  starred : Option Bool
  categories : Option (List String)
deriving DecidableEq, Repr

/-- Modelled from the spec: ImageOptUpdateModel.empty
(app/Models/api_models/admin_api_model.py, not under src).  Spec 4.8:
the update fails when no field is present at all, so empty holds
exactly when every optional field is absent. -/
def ImageOptUpdateModel.empty (m : ImageOptUpdateModel) : Bool :=
  m.starred.isNone && m.categories.isNone

/-- The shared mutable state the admin handlers touch: the index
payloads and the file paths in the active storage (paths are relative
to the storage root; files directly in the root contain no slash). -/
structure SystemState where
  points : List ImageData
  files : List String
deriving DecidableEq, Repr

/-- admin.py update_image: reject an all-absent model with 422 before
touching the index, look the record up (404 when absent), overwrite
exactly the present fields, and write the payload back. -/
def update_image (image_id : String) (model : ImageOptUpdateModel)
    (points : List ImageData) : Except Failure (List ImageData × String) :=
  if model.empty then
    Except.error (Failure.http 422 "Nothing to update.")
  else
    match points.find? (fun p => p.id == image_id) with
    | none => Except.error (Failure.http 404 "Cannot find the image with the given ID.")
    | some point =>
        let point2 := { point with
                        starred := model.starred.getD point.starred,
                        categories := model.categories.getD point.categories }
        Except.ok (points.map (fun p => if p.id == point2.id then point2 else p),
                   "Image updated.")

/-- admin.py delete_image: look the record up (404 when absent), delete
the index entry, and when the record is local and local storage is
enabled, list the root files matching the glob of the id followed by a
dot and anything; the source then runs assert len(image_files) <= 1, so
two or more matches raise an uncaught AssertionError; exactly one match
is moved (not erased) into the reserved _deleted area; afterwards a
present thumbnail reference leads to a hard delete of the thumbnail
file when it exists. -/
def delete_image (storage_enabled : Bool) (image_id : String)
    (st : SystemState) : Except Failure (SystemState × String) :=
  match st.points.find? (fun p => p.id == image_id) with
  | none => Except.error (Failure.http 404 "Cannot find the image with the given ID.")
  | some point =>
      let st1 : SystemState :=
        { st with points := st.points.filter (fun p => ¬(p.id == point.id)) }
      if point.«local» && storage_enabled then
        let image_files :=
          st1.files.filter (fun f => ¬ f.data.contains '/' && List.isPrefixOf (point.id ++ ".").data f.data)
        if image_files.length ≤ 1 then
          let st2 : SystemState :=
            match image_files with
            | [] => st1
            | f :: _ => { st1 with files := st1.files.erase f ++ ["_deleted/" ++ f] }
          let st3 : SystemState :=
            if point.thumbnail_url.isSome then
              let tf := "thumbnails/" ++ point.id ++ ".webp"
              if tf ∈ st2.files then { st2 with files := st2.files.erase tf } else st2
            else st2
          Except.ok (st3, "Image deleted.")
        else
          Except.error (Failure.unhandledException "AssertionError")
      else
        Except.ok (st1, "Image deleted.")

/-! Helper lemmas about the rescoring loop -/

/-- Unfolding equation for a successful single rescoring step. -/
theorem rescore_one_eq_some {sim : Vec → Vec → ℤ} {pv : Vec}
    {itm itm2 : SearchResult} :
    rescore_one sim pv itm = some itm2 ↔
    ∃ cv, comparison_vector itm.img = some cv ∧
      itm2 = { itm with score := sim cv pv * itm.score } := by
  unfold rescore_one
  cases h : comparison_vector itm.img with
  | none => simp
  | some v => simp [eq_comm]

/-- A successful run of the rescoring loop relates input and output
pointwise: every output item is its input item with the score replaced
by similarity times the original score. -/
theorem rescore_results_spec {sim : Vec → Vec → ℤ} {pv : Vec} :
    ∀ {result rescored : List SearchResult},
    rescore_results sim pv result = some rescored →
    List.Forall₂ (fun src out => ∃ cv, comparison_vector src.img = some cv ∧
      out = { src with score := sim cv pv * src.score }) result rescored := by
  intro result
  induction result with
  | nil =>
      intro rescored h
      simp only [rescore_results, Option.some.injEq] at h
      subst h
      exact List.Forall₂.nil
  | cons itm rest ih =>
      intro rescored h
      simp only [rescore_results] at h
      cases h1 : rescore_one sim pv itm with
      | none => rw [h1] at h; exact absurd h (by simp)
      | some itm2 =>
          cases h2 : rescore_results sim pv rest with
          | none => rw [h1, h2] at h; exact absurd h (by simp)
          | some rest2 =>
              rw [h1, h2] at h
              simp only [Option.some.injEq] at h
              subst h
              exact List.Forall₂.cons (rescore_one_eq_some.mp h1) (ih h2)

/-- The successful-output equation of the whole rescore-and-sort
routine. -/
theorem calculate_eq_some {gt gb : String → Vec} {sim : Vec → Vec → ℤ}
    {result out : List SearchResult} {model : AdvancedSearchModel} :
    calculate_and_sort_by_combined_scores gt gb sim result model = some out ↔
    ∃ pv rescored, extra_prompt_vec gt gb model = some pv ∧
      rescore_results sim pv result = some rescored ∧
      out = rescored.mergeSort combined_score_order := by
  unfold calculate_and_sort_by_combined_scores
  cases hp : extra_prompt_vec gt gb model with
  | none => simp
  | some pv =>
      cases hr : rescore_results sim pv result with
      | none => simp [hr]
      | some rescored => simp [hr, eq_comm]

/-- The descending comparator is transitive. -/
theorem combined_score_order_trans (a b c : SearchResult) :
    combined_score_order a b = true → combined_score_order b c = true →
    combined_score_order a c = true := by
  simp only [combined_score_order, decide_eq_true_eq]
  exact fun h1 h2 => le_trans h2 h1

/-- The descending comparator is total. -/
theorem combined_score_order_total (a b : SearchResult) :
    (combined_score_order a b || combined_score_order b a) = true := by
  simp only [combined_score_order, Bool.or_eq_true, decide_eq_true_eq]
  exact le_total b.score a.score

/-! Concrete fixtures used by witnesses and counterexamples -/

/-- A record payload with the given id and embedding vectors. -/
def mkImg (idv : String) (iv tv : Option Vec) : ImageData :=
  { id := idv, url := "u", thumbnail_url := none, «local» := false,
    categories := [], starred := false, format := "png", index_date := 0,
    image_vector := iv, text_contain_vector := tv }

/-- Fixture vision-aligned text encoder. -/
def exGT : String → Vec := fun _ => [5]

/-- Fixture OCR-aligned text encoder. -/
def exGB : String → Vec := fun _ => [2]

/-- Fixture similarity collaborator: a plain dot product. -/
def exDot : Vec → Vec → ℤ :=
  fun a b => (List.zip a b).foldl (fun s q => s + q.1 * q.2) 0

/-- Fixture results. -/
def exR1 : SearchResult := { img := mkImg "a" (some [1]) none, score := 3 }

def exR2 : SearchResult := { img := mkImg "b" (some [1]) none, score := 2 }

def exR3 : SearchResult := { img := mkImg "c" none (some [2]), score := 1 }

def exR5 : SearchResult := { img := mkImg "e" (some [-1]) none, score := 2 }

/-- Fixture advanced-search model with combined priority ocr. -/
def exModelOcr : AdvancedSearchModel :=
  { criteria := ["q"], negative_criteria := [], mode := "average",
    combined_priority := some SearchCombinedPriorityEnum.ocr,
    extra_prompt := some "x" }

/-! Claim C1 (corrected): the single extra-prompt vector and its encoder -/

/-- The one vector the rescoring routine derives from the extra prompt:
the vision-aligned encoder when combined-priority is ocr, the
OCR-aligned encoder when it is vision — that is, the encoder aligned to
the basis opposite to the combined priority. -/
def combined_prompt_vector (get_text_vector get_bert_vector : String → Vec)
    (model : AdvancedSearchModel) (p : String) : Vec :=
  if model.combined_priority = some SearchCombinedPriorityEnum.ocr
  then get_text_vector p
  else get_bert_vector p

/-- C1, amended.  In combined-mode rescoring the extra prompt is
embedded exactly once, with the text encoder aligned to the basis
OPPOSITE to the combined priority (the vision-aligned encoder when
combined_priority is ocr, the OCR-aligned encoder when it is vision),
and that single vector is the one used in every result's similarity
computation. -/
theorem combined_extra_prompt_single_vector
    (gt gb : String → Vec) (sim : Vec → Vec → ℤ)
    (result out : List SearchResult) (model : AdvancedSearchModel) (p : String)
    (hp : model.extra_prompt = some p)
    (hout : calculate_and_sort_by_combined_scores gt gb sim result model = some out) :
    extra_prompt_vec gt gb model = some (combined_prompt_vector gt gb model p) ∧
    ∃ rescored,
      rescore_results sim (combined_prompt_vector gt gb model p) result = some rescored ∧
      out = rescored.mergeSort combined_score_order ∧
      List.Forall₂ (fun src o => ∃ cv, comparison_vector src.img = some cv ∧
        o.score = sim cv (combined_prompt_vector gt gb model p) * src.score)
        result rescored := by
  have hpv : extra_prompt_vec gt gb model =
      some (combined_prompt_vector gt gb model p) := by
    unfold extra_prompt_vec combined_prompt_vector
    rw [hp]
  obtain ⟨pv, rescored, hpv2, hres, hout2⟩ := calculate_eq_some.mp hout
  rw [hpv] at hpv2
  injection hpv2 with h
  subst h
  refine ⟨hpv, rescored, hres, hout2, (rescore_results_spec hres).imp ?_⟩
  rintro src o ⟨cv, hcv, rfl⟩
  exact ⟨cv, hcv, rfl⟩

/-- C1, counterexample to the claim as stated.  With combined_priority
ocr, the claim predicts the OCR-aligned encoder for the extra prompt,
which at this input would give the new score 6; the code uses the
vision-aligned encoder and produces 15. -/
theorem combined_extra_prompt_encoder_counterexample :
    calculate_and_sort_by_combined_scores exGT exGB exDot [exR1] exModelOcr =
      some [{ exR1 with score := 15 }] ∧
    exModelOcr.combined_priority = some SearchCombinedPriorityEnum.ocr ∧
    comparison_vector exR1.img = some [1] ∧
    exDot [1] (exGT "x") * exR1.score = 15 ∧
    exDot [1] (exGB "x") * exR1.score = 6 ∧
    (15 : ℤ) ≠ 6 := by
  refine ⟨?_, by decide, by decide, by decide, by decide, by decide⟩
  rw [calculate_eq_some]
  exact ⟨[5], [{ exR1 with score := 15 }], by decide, by decide,
    by simp [List.mergeSort]⟩

/-- C1, witness for the amended theorem at a concrete input. -/
theorem combined_extra_prompt_single_vector_witness :
    (exModelOcr.extra_prompt = some "x" ∧
     calculate_and_sort_by_combined_scores exGT exGB exDot [exR1] exModelOcr =
       some [{ exR1 with score := 15 }]) ∧
    (extra_prompt_vec exGT exGB exModelOcr =
       some (combined_prompt_vector exGT exGB exModelOcr "x") ∧
     ∃ rescored,
       rescore_results exDot (combined_prompt_vector exGT exGB exModelOcr "x")
           [exR1] = some rescored ∧
       [{ exR1 with score := 15 }] = rescored.mergeSort combined_score_order ∧
       List.Forall₂ (fun src o => ∃ cv, comparison_vector src.img = some cv ∧
         o.score = exDot cv (combined_prompt_vector exGT exGB exModelOcr "x") * src.score)
         [exR1] rescored) := by
  have hout : calculate_and_sort_by_combined_scores exGT exGB exDot [exR1] exModelOcr =
      some [{ exR1 with score := 15 }] := by
    rw [calculate_eq_some]
    exact ⟨[5], [{ exR1 with score := 15 }], by decide, by decide,
      by simp [List.mergeSort]⟩
  exact ⟨⟨rfl, hout⟩,
    combined_extra_prompt_single_vector exGT exGB exDot [exR1]
      [{ exR1 with score := 15 }] exModelOcr "x" rfl hout⟩

/-! Claim C3 (confirmed): descending stable sort after rescoring -/

/-- C3.  After combined-mode rescoring the returned sequence is the
rescored sequence stably sorted descending by the new score: it is
pairwise descending, a permutation of the rescored sequence, and any
two results with equal new scores keep the relative order they had in
the rescored sequence, which itself keeps the original index order. -/
theorem combined_sort_descending_stable
    (gt gb : String → Vec) (sim : Vec → Vec → ℤ)
    (result rescored out : List SearchResult) (model : AdvancedSearchModel)
    (pv : Vec)
    (hpv : extra_prompt_vec gt gb model = some pv)
    (hres : rescore_results sim pv result = some rescored)
    (hout : calculate_and_sort_by_combined_scores gt gb sim result model = some out) :
    out = rescored.mergeSort combined_score_order ∧
    out.Pairwise (fun a b => b.score ≤ a.score) ∧
    out.Perm rescored ∧
    ∀ a b : SearchResult, [a, b].Sublist rescored → a.score = b.score →
      [a, b].Sublist out := by
  obtain ⟨pv2, rescored2, hpv2, hres2, hout2⟩ := calculate_eq_some.mp hout
  rw [hpv] at hpv2
  injection hpv2 with h
  subst h
  rw [hres] at hres2
  injection hres2 with h2
  subst h2
  refine ⟨hout2, ?_, ?_, ?_⟩
  · rw [hout2]
    refine (List.sorted_mergeSort combined_score_order_trans
      combined_score_order_total rescored).imp ?_
    intro a b hab
    simpa [combined_score_order] using hab
  · rw [hout2]
    exact rescored.mergeSort_perm combined_score_order
  · intro a b hab hscore
    rw [hout2]
    refine List.pair_sublist_mergeSort combined_score_order_trans
      combined_score_order_total ?_ hab
    simp [combined_score_order, hscore]

/-- C3, witness: three concrete results, two of which tie on the new
score; after sorting the higher-scored one leads and the tied pair
keeps its original relative order. -/
theorem combined_sort_descending_stable_witness :
    (extra_prompt_vec exGT exGB exModelOcr = some [5] ∧
     rescore_results exDot [5] [exR2, exR3, exR1] =
       some [{ exR2 with score := 10 }, { exR3 with score := 10 },
             { exR1 with score := 15 }] ∧
     calculate_and_sort_by_combined_scores exGT exGB exDot [exR2, exR3, exR1]
         exModelOcr =
       some [{ exR1 with score := 15 }, { exR2 with score := 10 },
             { exR3 with score := 10 }]) ∧
    ([{ exR1 with score := 15 }, { exR2 with score := 10 },
      { exR3 with score := 10 }] =
       ([{ exR2 with score := 10 }, { exR3 with score := 10 },
         { exR1 with score := 15 }].mergeSort combined_score_order) ∧
     List.Pairwise (fun a b : SearchResult => b.score ≤ a.score)
       [{ exR1 with score := 15 }, { exR2 with score := 10 },
        { exR3 with score := 10 }] ∧
     List.Perm
       [{ exR1 with score := 15 }, { exR2 with score := 10 },
        { exR3 with score := 10 }]
       [{ exR2 with score := 10 }, { exR3 with score := 10 },
        { exR1 with score := 15 }] ∧
     ∀ a b : SearchResult,
       [a, b].Sublist [{ exR2 with score := 10 }, { exR3 with score := 10 },
                       { exR1 with score := 15 }] →
       a.score = b.score →
       [a, b].Sublist [{ exR1 with score := 15 }, { exR2 with score := 10 },
                       { exR3 with score := 10 }]) := by
  have h1 : extra_prompt_vec exGT exGB exModelOcr = some [5] := by decide
  have h2 : rescore_results exDot [5] [exR2, exR3, exR1] =
      some [{ exR2 with score := 10 }, { exR3 with score := 10 },
            { exR1 with score := 15 }] := by decide
  have h3 : calculate_and_sort_by_combined_scores exGT exGB exDot
      [exR2, exR3, exR1] exModelOcr =
      some [{ exR1 with score := 15 }, { exR2 with score := 10 },
            { exR3 with score := 10 }] := by
    rw [calculate_eq_some]
    refine ⟨[5], [{ exR2 with score := 10 }, { exR3 with score := 10 },
      { exR1 with score := 15 }], h1, h2, ?_⟩
    simp [List.mergeSort, List.merge, combined_score_order, exR1, exR2, exR3]
  exact ⟨⟨h1, h2, h3⟩,
    combined_sort_descending_stable exGT exGB exDot [exR2, exR3, exR1]
      [{ exR2 with score := 10 }, { exR3 with score := 10 },
       { exR1 with score := 15 }]
      [{ exR1 with score := 15 }, { exR2 with score := 10 },
       { exR3 with score := 10 }]
      exModelOcr [5] h1 h2 h3⟩

/-! Claim C4 (confirmed): comparison embedding and new-score formula -/

/-- C4.  For every result in combined-mode rescoring, the comparison
embedding is the record's image embedding when present and otherwise
its OCR-text embedding, and the new score is exactly the collaborator
similarity between that embedding and the extra-prompt vector times the
original score — an unclamped product, so a negative similarity yields
a negative score. -/
theorem combined_new_score_formula
    (gt gb : String → Vec) (sim : Vec → Vec → ℤ)
    (result out : List SearchResult) (model : AdvancedSearchModel) (pv : Vec)
    (hpv : extra_prompt_vec gt gb model = some pv)
    (hout : calculate_and_sort_by_combined_scores gt gb sim result model = some out) :
    ∃ rescored, rescore_results sim pv result = some rescored ∧
      out = rescored.mergeSort combined_score_order ∧
      List.Forall₂ (fun src o =>
        o.img = src.img ∧
        (∀ w, src.img.image_vector = some w → o.score = sim w pv * src.score) ∧
        (src.img.image_vector = none →
          ∀ w, src.img.text_contain_vector = some w →
            o.score = sim w pv * src.score))
        result rescored := by
  obtain ⟨pv2, rescored, hpv2, hres, hout2⟩ := calculate_eq_some.mp hout
  rw [hpv] at hpv2
  injection hpv2 with h
  subst h
  refine ⟨rescored, hres, hout2, (rescore_results_spec hres).imp ?_⟩
  rintro src o ⟨cv, hcv, rfl⟩
  refine ⟨rfl, ?_, ?_⟩
  · intro w hw
    have hcv2 : comparison_vector src.img = some w := by
      unfold comparison_vector
      rw [hw]
    rw [hcv] at hcv2
    injection hcv2 with h3
    rw [h3]
  · intro hnone w hw
    have hcv2 : comparison_vector src.img = some w := by
      unfold comparison_vector
      rw [hnone, hw]
    rw [hcv] at hcv2
    injection hcv2 with h3
    rw [h3]

/-- C4, witness: one record with an image embedding, one text-only
record falling back to its OCR embedding, and one record whose
similarity is negative, producing the unclamped negative score -10. -/
theorem combined_new_score_formula_witness :
    (extra_prompt_vec exGT exGB exModelOcr = some [5] ∧
     calculate_and_sort_by_combined_scores exGT exGB exDot [exR1, exR3, exR5]
         exModelOcr =
       some [{ exR1 with score := 15 }, { exR3 with score := 10 },
             { exR5 with score := -10 }]) ∧
    (∃ rescored, rescore_results exDot [5] [exR1, exR3, exR5] = some rescored ∧
      [{ exR1 with score := 15 }, { exR3 with score := 10 },
       { exR5 with score := -10 }] = rescored.mergeSort combined_score_order ∧
      List.Forall₂ (fun src o =>
        o.img = src.img ∧
        (∀ w, src.img.image_vector = some w → o.score = exDot w [5] * src.score) ∧
        (src.img.image_vector = none →
          ∀ w, src.img.text_contain_vector = some w →
            o.score = exDot w [5] * src.score))
        [exR1, exR3, exR5] rescored) := by
  have h1 : extra_prompt_vec exGT exGB exModelOcr = some [5] := by decide
  have h3 : calculate_and_sort_by_combined_scores exGT exGB exDot
      [exR1, exR3, exR5] exModelOcr =
      some [{ exR1 with score := 15 }, { exR3 with score := 10 },
            { exR5 with score := -10 }] := by
    rw [calculate_eq_some]
    refine ⟨[5], [{ exR1 with score := 15 }, { exR3 with score := 10 },
      { exR5 with score := -10 }], h1, by decide, ?_⟩
    simp [List.mergeSort, List.merge, combined_score_order, exR1, exR3, exR5]
  exact ⟨⟨h1, h3⟩,
    combined_new_score_formula exGT exGB exDot [exR1, exR3, exR5]
      [{ exR1 with score := 15 }, { exR3 with score := 10 },
       { exR5 with score := -10 }]
      exModelOcr [5] h1 h3⟩

/-! Claim C5 (confirmed): advanced-search effective basis and embedding -/

/-- Fixture advanced-search model for a combined request with priority
vision. -/
def exModelComb : AdvancedSearchModel :=
  { criteria := ["q", "r"], negative_criteria := ["n"], mode := "average",
    combined_priority := some SearchCombinedPriorityEnum.vision,
    extra_prompt := some "x" }

/-- C5.  When advanced search issues a query, the effective basis is
combined-priority for a combined request and the requested basis
otherwise, and every string of both criteria lists is embedded
individually — the OCR-aligned encoder when the effective basis is ocr,
the vision-aligned encoder otherwise — preserving each list's order
(the vector lists are the image of the criteria lists under map). -/
theorem advanced_effective_basis_embedding
    (gt gb : String → Vec) (model : AdvancedSearchModel)
    (basis : SearchBasisEnum) (paging : SearchPagingParams) (q : AdvancedQuery)
    (hq : advancedSearch gt gb model basis paging = Except.ok q) :
    q.query_vector_basis =
      (if basis = SearchBasisEnum.combined
       then model.combined_priority.map priorityToBasis
       else some basis) ∧
    (basis = SearchBasisEnum.combined → model.combined_priority.isSome) ∧
    q.positive_vectors = model.criteria.map
      (fun t => if q.query_vector_basis = some SearchBasisEnum.ocr
                then gb t else gt t) ∧
    q.negative_vectors = model.negative_criteria.map
      (fun t => if q.query_vector_basis = some SearchBasisEnum.ocr
                then gb t else gt t) ∧
    q.mode = model.mode ∧ q.top_k = paging.count ∧ q.skip = paging.skip := by
  unfold advancedSearch at hq
  cases hv : validate_combined model basis with
  | error e => rw [hv] at hq; exact absurd hq (by simp)
  | ok u =>
      rw [hv] at hq
      by_cases hlen : model.criteria.length + model.negative_criteria.length = 0
      · rw [if_pos hlen] at hq; exact absurd hq (by simp)
      · rw [if_neg hlen] at hq
        injection hq with h
        subst h
        have hsome : basis = SearchBasisEnum.combined →
            model.combined_priority.isSome := by
          intro hb
          unfold validate_combined at hv
          by_cases hcond : basis = SearchBasisEnum.combined ∧
              ¬(model.combined_priority.isSome ∧ model.extra_prompt.isSome)
          · rw [if_pos hcond] at hv; exact absurd hv (by simp)
          · rw [not_and_or, not_not] at hcond
            rcases hcond with hcond | hcond
            · exact absurd hb hcond
            · exact hcond.1
        refine ⟨rfl, hsome, ?_, ?_, rfl, rfl, rfl⟩
        · by_cases hocr : (if basis = SearchBasisEnum.combined
              then model.combined_priority.map priorityToBasis
              else some basis) = some SearchBasisEnum.ocr
          · simp [hocr]
          · simp [hocr]
        · by_cases hocr : (if basis = SearchBasisEnum.combined
              then model.combined_priority.map priorityToBasis
              else some basis) = some SearchBasisEnum.ocr
          · simp [hocr]
          · simp [hocr]

/-- Fixture paging parameters. -/
def exPaging : SearchPagingParams := { count := 10, skip := 0 }

/-- The query the fixture combined request issues. -/
def exQComb : AdvancedQuery :=
  { positive_vectors := [[5], [5]], negative_vectors := [[5]],
    query_vector_basis := some SearchBasisEnum.vision,
    mode := "average", top_k := 10, skip := 0 }

/-- C5, witness: a combined request with priority vision embeds both
lists with the vision-aligned encoder and records effective basis
vision. -/
theorem advanced_effective_basis_embedding_witness :
    advancedSearch exGT exGB exModelComb SearchBasisEnum.combined exPaging =
      Except.ok exQComb ∧
    (exQComb.query_vector_basis =
      (if SearchBasisEnum.combined = SearchBasisEnum.combined
       then exModelComb.combined_priority.map priorityToBasis
       else some SearchBasisEnum.combined) ∧
     (SearchBasisEnum.combined = SearchBasisEnum.combined →
       exModelComb.combined_priority.isSome) ∧
     exQComb.positive_vectors = exModelComb.criteria.map
       (fun t => if exQComb.query_vector_basis = some SearchBasisEnum.ocr
                 then exGB t else exGT t) ∧
     exQComb.negative_vectors = exModelComb.negative_criteria.map
       (fun t => if exQComb.query_vector_basis = some SearchBasisEnum.ocr
                 then exGB t else exGT t) ∧
     exQComb.mode = exModelComb.mode ∧ exQComb.top_k = exPaging.count ∧
     exQComb.skip = exPaging.skip) := by
  have hq : advancedSearch exGT exGB exModelComb SearchBasisEnum.combined
      exPaging = Except.ok exQComb := by rfl
  exact ⟨hq, advanced_effective_basis_embedding exGT exGB exModelComb
    SearchBasisEnum.combined exPaging exQComb hq⟩

/-! Claim C6 (confirmed): empty criteria pair is rejected with 422 -/

/-- Fixture advanced-search model with both criteria lists empty. -/
def exModelEmpty : AdvancedSearchModel :=
  { criteria := [], negative_criteria := [], mode := "average",
    combined_priority := none, extra_prompt := none }

/-- C6.  An advanced-search request whose two criteria lists are both
empty fails with a 422 validation error for every basis, every mode and
every model, before any embedding or index query: the handler returns
an error, so no query is ever assembled (when the basis is combined and
the combined fields are absent, the combined-validation 422 fires
first; the emptiness 422 fires otherwise). -/
theorem advanced_empty_criteria_422
    (gt gb : String → Vec) (model : AdvancedSearchModel)
    (basis : SearchBasisEnum) (paging : SearchPagingParams)
    (hpos : model.criteria = []) (hneg : model.negative_criteria = []) :
    ∃ d, advancedSearch gt gb model basis paging =
      Except.error (Failure.http 422 d) := by
  unfold advancedSearch
  cases hv : validate_combined model basis with
  | error e =>
      have he : e = Failure.http 422
          "Combined search requires combined_priority and extra_prompt." := by
        unfold validate_combined at hv
        by_cases hcond : basis = SearchBasisEnum.combined ∧
            ¬(model.combined_priority.isSome ∧ model.extra_prompt.isSome)
        · rw [if_pos hcond] at hv
          injection hv with h
          exact h.symm
        · rw [if_neg hcond] at hv
          exact absurd hv (by simp)
      exact ⟨_, by rw [he]⟩
  | ok u =>
      refine ⟨"At least one criteria should be provided.", ?_⟩
      rw [if_pos (by rw [hpos, hneg]; rfl)]

/-- C6, witness at a concrete empty request. -/
theorem advanced_empty_criteria_422_witness :
    exModelEmpty.criteria = [] ∧ exModelEmpty.negative_criteria = [] ∧
    ∃ d, advancedSearch exGT exGB exModelEmpty SearchBasisEnum.vision
      { count := 10, skip := 0 } = Except.error (Failure.http 422 d) :=
  ⟨rfl, rfl, advanced_empty_criteria_422 exGT exGB exModelEmpty
    SearchBasisEnum.vision { count := 10, skip := 0 } rfl rfl⟩

/-! Claim C7 (confirmed): local delete moves one match, errors on two -/

/-- Distinct strings cannot share one value when one extends its own
length: a string never equals a nonempty prefix glued onto itself. -/
theorem ne_self_append {s f : String} (h : 0 < s.length) : f ≠ s ++ f := by
  intro he
  have hl := congrArg String.length he
  rw [String.length_append] at hl
  omega

/-- C7.  After the index entry is removed, the id-prefixed root file
search for a local record (with storage enabled) drives one of two
paths: two or more matches make the handler fail with an uncaught
AssertionError rather than pick one, and exactly one match makes the
handler succeed with that file moved into the reserved deleted area —
present under its new name, gone under its old one, not erased. -/
theorem delete_local_single_match_soft_delete
    (storage_enabled : Bool) (image_id : String) (st : SystemState)
    (point : ImageData)
    (hfind : st.points.find? (fun p => p.id == image_id) = some point)
    (hlocal : (point.«local» && storage_enabled) = true) :
    (1 < (st.files.filter
        (fun f => ¬ f.data.contains '/' && List.isPrefixOf (point.id ++ ".").data f.data)).length →
      delete_image storage_enabled image_id st =
        Except.error (Failure.unhandledException "AssertionError")) ∧
    (∀ f, st.files.filter
        (fun f2 => ¬ f2.data.contains '/' && List.isPrefixOf (point.id ++ ".").data f2.data) = [f] →
      ∃ st3, delete_image storage_enabled image_id st =
          Except.ok (st3, "Image deleted.") ∧
        ("_deleted/" ++ f) ∈ st3.files ∧ f ∉ st3.files) := by
  constructor
  · intro hlen
    unfold delete_image
    rw [hfind]
    simp only [hlocal, if_true, if_pos]
    rw [if_neg (by omega)]
  · intro f hm
    have hfin : f ∈ st.files.filter
        (fun f2 => ¬ f2.data.contains '/' && List.isPrefixOf (point.id ++ ".").data f2.data) := by
      rw [hm]
      exact List.mem_singleton_self f
    have hfmem : f ∈ st.files := List.mem_of_mem_filter hfin
    have hpred := List.of_mem_filter hfin
    have hcount : st.files.count f = 1 := by
      have h1 := List.count_filter
        (p := fun f2 => ¬ f2.data.contains '/' && List.isPrefixOf (point.id ++ ".").data f2.data)
        (a := f) (l := st.files) hpred
      rw [hm] at h1
      simpa using h1.symm
    have hnotmem : f ∉ st.files.erase f := by
      rw [← List.count_eq_zero, List.count_erase_self, hcount]
    have hne1 : f ≠ "_deleted/" ++ f := ne_self_append (by decide)
    -- the state after the move
    refine ⟨?_, ?_, ?_, ?_⟩
    · exact
        let st2 : SystemState :=
          { points := st.points.filter (fun p => ¬(p.id == point.id)),
            files := st.files.erase f ++ ["_deleted/" ++ f] }
        if point.thumbnail_url.isSome then
          let tf := "thumbnails/" ++ point.id ++ ".webp"
          if tf ∈ st2.files then { st2 with files := st2.files.erase tf } else st2
        else st2
    · unfold delete_image
      rw [hfind]
      simp only [hlocal, if_true, if_pos]
      rw [hm]
      rw [if_pos (by simp : ([f] : List String).length ≤ 1)]
    · by_cases hth : point.thumbnail_url.isSome
      · simp only [hth, if_true, if_pos]
        by_cases htf : ("thumbnails/" ++ point.id ++ ".webp") ∈
            st.files.erase f ++ ["_deleted/" ++ f]
        · rw [if_pos htf]
          have hne2 : "_deleted/" ++ f ≠ "thumbnails/" ++ point.id ++ ".webp" := by
            intro he
            have hd := congrArg String.data he
            rw [String.data_append, String.data_append, String.data_append] at hd
            have e1 : "_deleted/".data =
                ['_', 'd', 'e', 'l', 'e', 't', 'e', 'd', '/'] := rfl
            have e2 : "thumbnails/".data =
                ['t', 'h', 'u', 'm', 'b', 'n', 'a', 'i', 'l', 's', '/'] := rfl
            rw [e1, e2] at hd
            exact absurd (List.head_eq_of_cons_eq hd) (by decide)
          rw [List.mem_erase_of_ne hne2]
          exact List.mem_append_right _ (List.mem_singleton_self _)
        · rw [if_neg htf]
          exact List.mem_append_right _ (List.mem_singleton_self _)
      · simp only [hth, if_false, Bool.false_eq_true]
        exact List.mem_append_right _ (List.mem_singleton_self _)
    · have hbase : f ∉ st.files.erase f ++ ["_deleted/" ++ f] := by
        intro hmem
        rcases List.mem_append.mp hmem with h | h
        · exact hnotmem h
        · exact hne1 (List.mem_singleton.mp h)
      by_cases hth : point.thumbnail_url.isSome
      · simp only [hth, if_true, if_pos]
        by_cases htf : ("thumbnails/" ++ point.id ++ ".webp") ∈
            st.files.erase f ++ ["_deleted/" ++ f]
        · rw [if_pos htf]
          intro hmem
          exact hbase ((List.erase_sublist _ _).subset hmem)
        · rw [if_neg htf]
          exact hbase
      · simp only [hth, if_false, Bool.false_eq_true]
        exact hbase

/-- Fixture local record. -/
def exPoint : ImageData :=
  { id := "p1", url := "u", thumbnail_url := none, «local» := true,
    categories := [], starred := false, format := "png", index_date := 0 }

/-- Fixture state with exactly one stored file matching the record. -/
def exStateOne : SystemState :=
  { points := [exPoint], files := ["p1.png", "other.txt"] }

/-- Fixture state with two stored files matching the record. -/
def exStateTwo : SystemState :=
  { points := [exPoint], files := ["p1.png", "p1.jpg"] }

/-- C7, witness: with one matching file the delete succeeds and the
file reappears only under the deleted area; with two matching files the
delete raises the assertion error. -/
theorem delete_local_single_match_soft_delete_witness :
    (exStateOne.points.find? (fun p => p.id == "p1") = some exPoint ∧
     (exPoint.«local» && true) = true ∧
     exStateOne.files.filter
       (fun f2 => ¬ f2.data.contains '/' && List.isPrefixOf (exPoint.id ++ ".").data f2.data) =
       ["p1.png"]) ∧
    (∃ st3, delete_image true "p1" exStateOne =
        Except.ok (st3, "Image deleted.") ∧
      ("_deleted/" ++ "p1.png") ∈ st3.files ∧ "p1.png" ∉ st3.files) ∧
    (exStateTwo.points.find? (fun p => p.id == "p1") = some exPoint ∧
     1 < (exStateTwo.files.filter
       (fun f => ¬ f.data.contains '/' && List.isPrefixOf (exPoint.id ++ ".").data f.data)).length ∧
     delete_image true "p1" exStateTwo =
       Except.error (Failure.unhandledException "AssertionError")) := by
  have h1 : exStateOne.points.find? (fun p => p.id == "p1") = some exPoint := by
    decide
  have h2 : (exPoint.«local» && true) = true := by decide
  have h3 : exStateOne.files.filter
      (fun f2 => ¬ f2.data.contains '/' && List.isPrefixOf (exPoint.id ++ ".").data f2.data) =
      ["p1.png"] := by decide
  have h4 : exStateTwo.points.find? (fun p => p.id == "p1") = some exPoint := by
    decide
  have h5 : 1 < (exStateTwo.files.filter
      (fun f => ¬ f.data.contains '/' && List.isPrefixOf (exPoint.id ++ ".").data f.data)).length := by
    decide
  exact ⟨⟨h1, h2, h3⟩,
    (delete_local_single_match_soft_delete true "p1" exStateOne exPoint h1 h2).2
      "p1.png" h3,
    ⟨h4, h5,
     (delete_local_single_match_soft_delete true "p1" exStateTwo exPoint h4 h2).1
       h5⟩⟩

/-! Claim C8 (confirmed): empty partial update rejected, present fields applied -/

/-- C8.  A partial-update request with no field present fails with 422
before the index is read or written (the handler returns the error
without looking the record up, so no write can occur); a successful
update rewrites exactly the record with the requested id, and the new
payload is the old one with only the explicitly-present fields
replaced. -/
theorem update_opt_empty_validation_and_partial_fields
    (image_id : String) (model : ImageOptUpdateModel) (points : List ImageData) :
    (model.empty = true →
      update_image image_id model points =
        Except.error (Failure.http 422 "Nothing to update.")) ∧
    (∀ points2 msg, update_image image_id model points = Except.ok (points2, msg) →
      model.empty = false ∧
      ∃ point, points.find? (fun p => p.id == image_id) = some point ∧
        points2 = points.map (fun p => if p.id == point.id then
          { point with starred := model.starred.getD point.starred,
                       categories := model.categories.getD point.categories }
          else p)) := by
  constructor
  · intro hemp
    unfold update_image
    rw [if_pos hemp]
  · intro points2 msg hok
    unfold update_image at hok
    by_cases hemp : model.empty = true
    · rw [if_pos hemp] at hok
      exact absurd hok (by simp)
    · rw [if_neg hemp] at hok
      refine ⟨by simpa using hemp, ?_⟩
      cases hfind : points.find? (fun p => p.id == image_id) with
      | none => rw [hfind] at hok; exact absurd hok (by simp)
      | some point =>
          rw [hfind] at hok
          injection hok with h
          injection h with h1 h2
          exact ⟨point, rfl, h1.symm⟩

/-- Fixture partial-update model with no field present. -/
def exUpdEmpty : ImageOptUpdateModel := { starred := none, categories := none }

/-- Fixture partial-update model setting only the starred flag. -/
def exUpdStar : ImageOptUpdateModel :=
  { starred := some true, categories := none }

/-- C8, witness: the all-absent model yields the 422 error, and a
starred-only update rewrites exactly that field of the target record. -/
theorem update_opt_empty_validation_and_partial_fields_witness :
    (exUpdEmpty.empty = true ∧
     update_image "p1" exUpdEmpty [exPoint] =
       Except.error (Failure.http 422 "Nothing to update.")) ∧
    (update_image "p1" exUpdStar [exPoint] =
       Except.ok ([{ exPoint with starred := true }], "Image updated.") ∧
     (exUpdStar.empty = false ∧
      ∃ point, [exPoint].find? (fun p => p.id == "p1") = some point ∧
        [{ exPoint with starred := true }] = [exPoint].map
          (fun p => if p.id == point.id then
            { point with starred := exUpdStar.starred.getD point.starred,
                         categories := exUpdStar.categories.getD point.categories }
            else p))) := by
  have hok : update_image "p1" exUpdStar [exPoint] =
      Except.ok ([{ exPoint with starred := true }], "Image updated.") := by rfl
  exact ⟨⟨rfl, (update_opt_empty_validation_and_partial_fields "p1" exUpdEmpty
      [exPoint]).1 rfl⟩,
    ⟨hok, (update_opt_empty_validation_and_partial_fields "p1" exUpdStar
      [exPoint]).2 [{ exPoint with starred := true }] "Image updated." hok⟩⟩

/-! Claim C9 (confirmed): random pick ignores the skip parameter -/

/-- C9.  The random endpoint hands the index only the probe vector and
the count: requests differing only in skip issue the identical query,
and therefore receive the identical result set from any index
collaborator. -/
theorem random_pick_ignores_skip
    (get_random_vector : Unit → Vec) (count s1 s2 : ℕ) :
    randomPick get_random_vector { count := count, skip := s1 } =
      randomPick get_random_vector { count := count, skip := s2 } ∧
    (randomPick get_random_vector { count := count, skip := s1 }).2 = count ∧
    ∀ querySearch : Vec × ℕ → List SearchResult,
      querySearch (randomPick get_random_vector { count := count, skip := s1 }) =
        querySearch (randomPick get_random_vector { count := count, skip := s2 }) :=
  ⟨rfl, rfl, fun _ => rfl⟩

/-! Claim C10 (confirmed): unguarded decode in image search vs upload -/

/-- C10.  For bytes the decoder rejects, the image-search endpoint
(whose PIL call sits in no try-block) surfaces the uncaught decode
exception, while the upload endpoint (same decoder, format resolved,
no duplicate) catches it and maps it to InvalidPayloadError(400). -/
theorem image_search_unguarded_decode_vs_upload
    {Img : Type} (decode : Bytes → Option Img) (get_image_vector : Img → Vec)
    (generate_uuid : Bytes → String) (validate_ids : List String → List String)
    (now : ℕ) (paging : SearchPagingParams)
    (image_file : UploadFile) (model : UploadImageModel) (t : String)
    (hdecode : decode image_file.contents = none)
    (hfmt : resolve_img_type image_file = some t)
    (hdup : validate_ids [generate_uuid image_file.contents] = []) :
    imageSearch decode get_image_vector image_file.contents paging =
      Except.error (Failure.unhandledException "UnidentifiedImageError") ∧
    upload_image generate_uuid validate_ids decode now image_file model =
      Except.error (Failure.http 400 "Cannot open the image file.") := by
  constructor
  · unfold imageSearch
    rw [hdecode]
  · unfold upload_image
    rw [hfmt]
    refine Eq.trans (if_neg (by rw [hdup]; simp)) ?_
    rw [hdecode]

/-- Fixture decoder that rejects every buffer. -/
def exNoDecode : Bytes → Option Unit := fun _ => none

/-- Fixture decoder that accepts every buffer. -/
def exYesDecode : Bytes → Option Unit := fun _ => some ()

/-- Fixture index in which no id exists. -/
def exNoDup : List String → List String := fun _ => []

/-- Fixture index in which every id already exists. -/
def exDupIndex : List String → List String := fun l => l

/-- Fixture content-address hash. -/
def exGenId : Bytes → String := fun _ => "id0"

/-- Fixture upload whose declared content type resolves. -/
def exGoodFile : UploadFile :=
  { content_type := "image/png", filename := none, contents := [9] }

/-- Fixture upload with unrecognized content type and extension. -/
def exBadFile : UploadFile :=
  { content_type := "text/plain", filename := some "x.txt", contents := [1, 2] }

/-- Fixture upload request model. -/
def exUploadModel : UploadImageModel :=
  { url := "u", thumbnail_url := none, «local» := false, categories := [],
    starred := false, skip_ocr := false }

/-- C10, witness: undecodable bytes crash the search endpoint and yield
400 from upload. -/
theorem image_search_unguarded_decode_vs_upload_witness :
    (exNoDecode exGoodFile.contents = none ∧
     resolve_img_type exGoodFile = some "png" ∧
     exNoDup [exGenId exGoodFile.contents] = []) ∧
    (imageSearch exNoDecode (fun _ => [0]) exGoodFile.contents exPaging =
       Except.error (Failure.unhandledException "UnidentifiedImageError") ∧
     upload_image exGenId exNoDup exNoDecode 0 exGoodFile exUploadModel =
       Except.error (Failure.http 400 "Cannot open the image file.")) := by
  have h1 : exNoDecode exGoodFile.contents = none := rfl
  have h2 : resolve_img_type exGoodFile = some "png" := by rfl
  have h3 : exNoDup [exGenId exGoodFile.contents] = [] := rfl
  exact ⟨⟨h1, h2, h3⟩,
    image_search_unguarded_decode_vs_upload exNoDecode (fun _ => [0]) exGenId
      exNoDup 0 exPaging exGoodFile exUploadModel "png" h1 h2 h3⟩

/-! Claim C2 (corrected): duplicate check runs after format resolution -/

/-- C2, amended.  Image-format resolution precedes the duplicate check:
for every upload whose declared content-type or filename extension
resolves to a supported format and whose bytes are already present in
the index, the operation fails with ConflictError(409) whose failure
detail includes the content-addressed id, and nothing is submitted to
the upload queue on this path. -/
theorem upload_duplicate_conflict_after_format
    {Img : Type} (generate_uuid : Bytes → String)
    (validate_ids : List String → List String) (decode : Bytes → Option Img)
    (now : ℕ) (image_file : UploadFile) (model : UploadImageModel) (t : String)
    (hfmt : resolve_img_type image_file = some t)
    (hdup : validate_ids [generate_uuid image_file.contents] ≠ []) :
    upload_image generate_uuid validate_ids decode now image_file model =
      Except.error (Failure.http 409
        ("The uploaded point is already contained in the database! entity id: " ++
          generate_uuid image_file.contents)) := by
  unfold upload_image
  rw [hfmt]
  exact if_pos (fun h => hdup (List.eq_nil_of_length_eq_zero h))

/-- C2, counterexample to the claim as stated.  These bytes are already
present in the index (the id validator returns every id it is asked
about), yet because the declared content type and the filename
extension both fail the allow-lists, the upload fails with 415, not
with the 409 conflict the claim requires for every duplicate upload. -/
theorem upload_duplicate_check_order_counterexample :
    exDupIndex [exGenId exBadFile.contents] = [exGenId exBadFile.contents] ∧
    exDupIndex [exGenId exBadFile.contents] ≠ [] ∧
    upload_image exGenId exDupIndex exYesDecode 0 exBadFile
      exUploadModel = Except.error (Failure.http 415 "Unsupported image format.") ∧
    Failure.http 415 "Unsupported image format." ≠
      Failure.http 409
        ("The uploaded point is already contained in the database! entity id: " ++
          exGenId exBadFile.contents) := by
  refine ⟨rfl, by decide, by rfl, by decide⟩

/-- C2, witness for the amended theorem: an upload whose format
resolves and whose bytes are already present fails with the 409
conflict quoting the content-addressed id. -/
theorem upload_duplicate_conflict_after_format_witness :
    (resolve_img_type exGoodFile = some "png" ∧
     exDupIndex [exGenId exGoodFile.contents] ≠ []) ∧
    upload_image exGenId exDupIndex exYesDecode 0 exGoodFile
      exUploadModel = Except.error (Failure.http 409
        ("The uploaded point is already contained in the database! entity id: " ++
          exGenId exGoodFile.contents)) := by
  have h1 : resolve_img_type exGoodFile = some "png" := by rfl
  have h2 : exDupIndex [exGenId exGoodFile.contents] ≠ [] := by decide
  exact ⟨⟨h1, h2⟩,
    upload_duplicate_conflict_after_format exGenId exDupIndex exYesDecode
      0 exGoodFile exUploadModel "png" h1 h2⟩

end NekoGallery
